import Mathlib

/-!
Shallow embedding of the django-entity-event core (entity_event/models.py).

The relational store is modelled as a `DB` record of row lists.  Django
querysets become list filters, `Q` objects become boolean predicates on rows,
and the unique constraints declared on the models (`Event.uuid` unique,
`EventSeen` unique per `(event, medium)`) are modelled by making the insert
operations return `Except`: an insert that would violate a constraint is an
`IntegrityError`, matching the behaviour of the backing relational engine.
`@transaction.atomic` is modelled by the `Except` plumbing: an error return
carries no database state, i.e. the transaction rolls back.

Python-level runtime errors are modelled the same way: `reduce(or_, [])`
raises `TypeError` in Python, so the queries that build their subscription
disjunction with `reduce` return `Except.error "TypeError"` when the
subscription list is empty.

Timestamps are integers; `datetime.utcnow()` is an explicit `now` argument.
-/

namespace EntityEvent

/-- Row of the external `entity.Entity` table: primary key plus kind. -/
structure Entity where
  id : Nat
  entity_kind : Nat
deriving DecidableEq

/-- Row of `entity.EntityRelationship`: a directed sub/super edge. -/
structure EntityRelationship where
  sub_entity : Nat
  super_entity : Nat
deriving DecidableEq

/-- Row of `entity_event.Subscription` (foreign keys stored as ids). -/
structure Subscription where
  medium : Nat
  source : Nat
  entity : Nat
  sub_entity_kind : Option Nat
  only_following : Bool
deriving DecidableEq

/-- Row of `entity_event.Unsubscription`. -/
structure Unsubscription where
  entity : Nat
  medium : Nat
  source : Nat
deriving DecidableEq

/-- Row of `entity_event.Event`.  `context` is an opaque payload, `time` is
the auto-assigned creation timestamp and `time_expires` is nullable. -/
structure Event where
  id : Nat
  source : Nat
  context : String
  time : Int
  time_expires : Option Int
  uuid : String
deriving DecidableEq

/-- Row of `entity_event.EventActor`. -/
structure EventActor where
  event : Nat
  entity : Nat
deriving DecidableEq

/-- Row of `entity_event.EventSeen`.  `time_seen` defaults to utcnow. -/
structure EventSeen where
  event : Nat
  medium : Nat
  time_seen : Int
deriving DecidableEq

/-- The abstract relational store: one list of rows per table. -/
structure DB where
  entities : List Entity
  relationships : List EntityRelationship
  subscriptions : List Subscription
  unsubscriptions : List Unsubscription
  events : List Event
  eventActors : List EventActor
  eventSeens : List EventSeen
deriving DecidableEq

/-- The unique-constraint key of an `EventSeen` row (`unique_together` on
`('event', 'medium')` in the model Meta). -/
def EventSeen.key (s : EventSeen) : Nat × Nat :=
  (s.event, s.medium)

/-- Bulk insert of `EventSeen` rows.  The relational engine rejects the whole
statement with an integrity error when the batch conflicts with an existing
row, or within itself, on the `(event, medium)` unique key. -/
def bulk_create_event_seen (db : DB) (rows : List EventSeen) : Except String DB :=
  if (rows.map EventSeen.key).Nodup ∧ ∀ r ∈ rows, ∀ s ∈ db.eventSeens, EventSeen.key s ≠ EventSeen.key r
  then Except.ok { db with eventSeens := db.eventSeens ++ rows }
  else Except.error "IntegrityError"

/-- Model of `EventQuerySet.mark_seen`: bulk-creates an `EventSeen` row for
the given medium for every event in the queryset. -/
def EventQuerySet.mark_seen (db : DB) (events : List Event) (m : Nat) (now : Int) : Except String DB :=
  bulk_create_event_seen db (events.map (fun e => { event := e.id, medium := m, time_seen := now }))

/-- Model of the `eventseen__medium=self` join condition. -/
def seen_by_medium (db : DB) (m : Nat) (e : Event) : Bool :=
  decide (∃ s ∈ db.eventSeens, s.event = e.id ∧ s.medium = m)

/-- Model of `Medium.get_event_filters`: the list of `Q` objects (as boolean
predicates on event rows) built from the optional query arguments. -/
def Medium.get_event_filters (db : DB) (m : Nat) (now : Int) (start_time end_time : Option Int)
    (seen : Option Bool) (include_expired : Bool) : List (Event → Bool) :=
  (match start_time with
   | some t => [fun e : Event => decide (t ≤ e.time)]
   | none => ([] : List (Event → Bool))) ++
  (match end_time with
   | some t => [fun e : Event => decide (e.time ≤ t)]
   | none => ([] : List (Event → Bool))) ++
  (if include_expired then ([] : List (Event → Bool)) else
    [fun e : Event => match e.time_expires with
      | some texp => decide (now ≤ texp)
      | none => true]) ++
  (match seen with
   | some true => [fun e => seen_by_medium db m e]
   | some false => [fun e => !seen_by_medium db m e]
   | none => [])

/-- Conjunction of a list of `Q` filters, as in `Event.objects.filter(*filters)`. -/
def matches_filters (filters : List (Event → Bool)) (e : Event) : Bool :=
  filters.all (fun f => f e)

/-- Model of `Medium.get_filtered_events`.  When `seen = false` and
`mark_seen` is requested, the filtered queryset is materialised as an id
snapshot, the events are re-queried by id, and only then marked seen. -/
def Medium.get_filtered_events (db : DB) (m : Nat) (now : Int) (start_time end_time : Option Int)
    (seen : Option Bool) (include_expired mark : Bool) : Except String (List Event × DB) :=
  let fs := Medium.get_event_filters db m now start_time end_time seen include_expired
  let events := db.events.filter (matches_filters fs)
  if seen = some false ∧ mark then
    let ids := events.map (fun e => e.id)
    let events2 := db.events.filter (fun e => decide (e.id ∈ ids))
    match EventQuerySet.mark_seen db events2 m now with
    | Except.ok db2 => Except.ok (events2, db2)
    | Except.error msg => Except.error msg
  else
    Except.ok (events, db)

/-- Model of `Medium.followed_by` (default policy): the given entities plus
their direct super-entities, as rows of the entity table. -/
def Medium.followed_by (db : DB) (entity_ids : List Nat) : List Entity :=
  let super_entities := (db.relationships.filter (fun r => decide (r.sub_entity ∈ entity_ids))).map
    (fun r => r.super_entity)
  db.entities.filter (fun e => decide (e.id ∈ entity_ids) || decide (e.id ∈ super_entities))

/-- Model of `Medium.followers_of` (default policy): the given entities plus
their direct sub-entities, as rows of the entity table. -/
def Medium.followers_of (db : DB) (entity_ids : List Nat) : List Entity :=
  let sub_entities := (db.relationships.filter (fun r => decide (r.super_entity ∈ entity_ids))).map
    (fun r => r.sub_entity)
  db.entities.filter (fun e => decide (e.id ∈ entity_ids) || decide (e.id ∈ sub_entities))

/-- Model of `Subscription.subscribed_entities`: the singleton owner for an
individual subscription, or the owner's direct sub-entities of the configured
kind for a group subscription. -/
def Subscription.subscribed_entities (db : DB) (sub : Subscription) : List Entity :=
  match sub.sub_entity_kind with
  | some kind =>
    let sub_ids := (db.relationships.filter (fun r =>
      decide (r.super_entity = sub.entity) &&
      decide (∃ e ∈ db.entities, e.id = r.sub_entity ∧ e.entity_kind = kind))).map
      (fun r => r.sub_entity)
    db.entities.filter (fun e => decide (e.id ∈ sub_ids))
  | none => db.entities.filter (fun e => decide (e.id = sub.entity))

/-- Model of `Medium.subset_subscriptions`: keep subscriptions the given
entity is a part of, either individually or through a direct super-entity
group subscription of the entity's kind. -/
def Medium.subset_subscriptions (db : DB) (subscriptions : List Subscription)
    (entity : Option Entity) : List Subscription :=
  match entity with
  | none => subscriptions
  | some ent =>
    let super_entities := (db.relationships.filter (fun r => decide (r.sub_entity = ent.id))).map
      (fun r => r.super_entity)
    subscriptions.filter (fun s =>
      (decide (s.entity = ent.id) && decide (s.sub_entity_kind = none)) ||
      (decide (s.entity ∈ super_entities) && decide (s.sub_entity_kind = some ent.entity_kind)))

/-- Model of the `Medium.unsubscriptions` cached dictionary, looked up at one
source key: the entity ids unsubscribed from that source for this medium. -/
def Medium.unsubscriptions (db : DB) (m : Nat) (source : Nat) : List Nat :=
  (db.unsubscriptions.filter (fun u => decide (u.medium = m) && decide (u.source = source))).map
    (fun u => u.entity)

/-- Model of `Medium.filter_source_targets_by_unsubscription`. -/
def Medium.filter_source_targets_by_unsubscription (db : DB) (m : Nat) (source_id : Nat)
    (targets : List Entity) : List Entity :=
  targets.filter (fun t => !decide (t.id ∈ Medium.unsubscriptions db m source_id))

/-- Model of `Medium.events`.  The per-subscription `Q` objects are combined
with `reduce(or_, qs)`, which raises `TypeError` on an empty list, i.e. when
the medium has no subscriptions. -/
def Medium.events (db : DB) (m : Nat) (now : Int) (start_time end_time : Option Int)
    (seen : Option Bool) (include_expired mark : Bool) : Except String (List Event × DB) :=
  match Medium.get_filtered_events db m now start_time end_time seen include_expired mark with
  | Except.error msg => Except.error msg
  | Except.ok (events, db2) =>
    let subscriptions := db2.subscriptions.filter (fun s => decide (s.medium = m))
    if subscriptions.isEmpty then
      Except.error "TypeError"
    else
      let q := fun (e : Event) => subscriptions.any (fun sub =>
        if sub.only_following then
          let followed := Medium.followed_by db2
            ((Subscription.subscribed_entities db2 sub).map (fun x => x.id))
          decide (∃ a ∈ db2.eventActors, a.event = e.id ∧ ∃ f ∈ followed, f.id = a.entity) &&
            decide (e.source = sub.source)
        else
          decide (e.source = sub.source))
      Except.ok (events.filter q, db2)

/-- Model of `Medium.entity_events`: like `events` but with the subscriptions
subset to the given entity, and events kept only when the entity survives the
unsubscription filter for the event's source. -/
def Medium.entity_events (db : DB) (m : Nat) (entity : Entity) (now : Int)
    (start_time end_time : Option Int) (seen : Option Bool) (include_expired mark : Bool) :
    Except String (List Event × DB) :=
  match Medium.get_filtered_events db m now start_time end_time seen include_expired mark with
  | Except.error msg => Except.error msg
  | Except.ok (events, db2) =>
    let subscriptions := Medium.subset_subscriptions db2
      (db2.subscriptions.filter (fun s => decide (s.medium = m))) (some entity)
    if subscriptions.isEmpty then
      Except.error "TypeError"
    else
      let q := fun (e : Event) => subscriptions.any (fun sub =>
        if sub.only_following then
          let followed := Medium.followed_by db2 [entity.id]
          decide (∃ a ∈ db2.eventActors, a.event = e.id ∧ ∃ f ∈ followed, f.id = a.entity) &&
            decide (e.source = sub.source)
        else
          decide (e.source = sub.source))
      Except.ok ((events.filter q).filter (fun e =>
        !(Medium.filter_source_targets_by_unsubscription db2 m e.source [entity]).isEmpty), db2)

/-- Body of the inner subscription loop of `Medium.events_targets`: the
targets one subscription contributes for one event.  A subscription whose
source differs from the event's is skipped (`continue`); an `only_following`
subscription intersects its subscribed entities with the followers of the
event's actors; otherwise all subscribed entities are contributed. -/
def Medium.subscription_targets (db : DB) (e : Event) (sub : Subscription) : List Entity :=
  if e.source = sub.source then
    let subscribed := Subscription.subscribed_entities db sub
    if sub.only_following then
      let actor_ids := (db.eventActors.filter (fun a => decide (a.event = e.id))).map
        (fun a => a.entity)
      let potential_targets := Medium.followers_of db actor_ids
      db.entities.filter (fun ent =>
        decide (∃ x ∈ subscribed, x.id = ent.id) &&
        decide (∃ p ∈ potential_targets, p.id = ent.id))
    else
      subscribed
  else []

/-- Body of the outer event loop of `Medium.events_targets`: accumulate the
targets over all given subscriptions, filter them by unsubscription and
(optionally) by entity kind, and drop the event when nothing remains. -/
def Medium.event_targets_pair (db : DB) (m : Nat) (entity_kind : Option Nat)
    (subscriptions : List Subscription) (e : Event) : Option (Event × List Entity) :=
  let targets := subscriptions.flatMap (Medium.subscription_targets db e)
  let targets2 := Medium.filter_source_targets_by_unsubscription db m e.source targets
  let targets3 := match entity_kind with
    | some k => targets2.filter (fun t => decide (t.entity_kind = k))
    | none => targets2
  if targets3.isEmpty then none else some (e, targets3)

/-- Model of `Medium.events_targets`: for every filtered event, accumulate
targets over the medium's subscriptions with matching source, filter them by
unsubscription and (optionally) entity kind, and keep the event only when the
resulting target list is non-empty. -/
def Medium.events_targets (db : DB) (m : Nat) (entity_kind : Option Nat) (now : Int)
    (start_time end_time : Option Int) (seen : Option Bool) (include_expired mark : Bool) :
    Except String (List (Event × List Entity) × DB) :=
  match Medium.get_filtered_events db m now start_time end_time seen include_expired mark with
  | Except.error msg => Except.error msg
  | Except.ok (events, db2) =>
    let subscriptions := db2.subscriptions.filter (fun s => decide (s.medium = m))
    Except.ok (events.filterMap (Medium.event_targets_pair db2 m entity_kind subscriptions), db2)

/-- An actor argument to `create_event`: an entity reference or a raw id. -/
inductive ActorRef where
  | ent (e : Entity)
  | raw (id : Nat)
deriving DecidableEq

/-- Model of the `a.id if isinstance(a, Entity) else a` coercion. -/
def ActorRef.to_id : ActorRef → Nat
  | ActorRef.ent e => e.id
  | ActorRef.raw i => i

/-- Fresh primary key for an event insert. -/
def fresh_event_id (db : DB) : Nat :=
  db.events.foldr (fun e acc => max e.id acc) 0 + 1

/-- Model of `EventManager.create_event`.  With `ignore_duplicates`, an
existing event with the same uuid short-circuits to a `none` return with no
writes; otherwise the insert must respect the unique constraint on `uuid`,
then one `EventActor` row is bulk-created per actor. -/
def EventManager.create_event (db : DB) (now : Int) (actors : List ActorRef)
    (ignore_duplicates : Bool) (source : Nat) (context : String) (time_expires : Option Int)
    (uuid : String) : Except String (Option Event × DB) :=
  if ignore_duplicates ∧ ∃ e ∈ db.events, e.uuid = uuid then
    Except.ok (none, db)
  else if ∃ e ∈ db.events, e.uuid = uuid then
    Except.error "IntegrityError"
  else
    let event : Event :=
      { id := fresh_event_id db, source := source, context := context, time := now,
        time_expires := time_expires, uuid := uuid }
    let actor_ids := actors.map ActorRef.to_id
    Except.ok (some event,
      { db with
          events := db.events ++ [event],
          eventActors := db.eventActors ++ actor_ids.map (fun a => { event := event.id, entity := a }) })

/-- Pairs carried by an `events_targets` result, empty on error. -/
def result_pairs (r : Except String (List (Event × List Entity) × DB)) :
    List (Event × List Entity) :=
  match r with
  | Except.ok (p, _) => p
  | Except.error _ => []

/-! Concrete database states used to exercise the model. -/

/-- Example entity of kind 5. -/
def ex_entity : Entity := { id := 1, entity_kind := 5 }

/-- Example parent entity: a direct super-entity of `ex_entity` in `follow_db`. -/
def ex_parent : Entity := { id := 2, entity_kind := 7 }

/-- Example event from source 3, never expiring. -/
def ex_event : Event :=
  { id := 1, source := 3, context := "c", time := 0, time_expires := none, uuid := "u" }

/-- Second example event from source 3. -/
def ex_event2 : Event :=
  { id := 2, source := 3, context := "d", time := 0, time_expires := none, uuid := "v" }

/-- Example event whose expiration time lies in the past of `now = 0`. -/
def ex_expired_event : Event :=
  { id := 3, source := 3, context := "e", time := 0, time_expires := some (-5), uuid := "w" }

/-- Example individual subscription on medium 2 for source 3. -/
def ex_subscription : Subscription :=
  { medium := 2, source := 3, entity := 1, sub_entity_kind := none, only_following := false }

/-- Example group subscription owned by `ex_parent` for sub-entities of kind 5. -/
def ex_group_subscription : Subscription :=
  { medium := 2, source := 3, entity := 2, sub_entity_kind := some 5, only_following := true }

/-- Database with one entity and one event but not a single subscription. -/
def no_subscription_db : DB :=
  { entities := [ex_entity]
    relationships := []
    subscriptions := []
    unsubscriptions := []
    events := [ex_event]
    eventActors := []
    eventSeens := [] }

/-- Database carrying the same subscription row twice. -/
def dup_subscription_db : DB :=
  { no_subscription_db with subscriptions := [ex_subscription, ex_subscription] }

/-- Database with two unseen events and one subscription. -/
def two_event_db : DB :=
  { no_subscription_db with
      subscriptions := [ex_subscription]
      events := [ex_event, ex_event2] }

/-- Database with a parent/child relationship edge (child 1, parent 2). -/
def follow_db : DB :=
  { entities := [ex_entity, ex_parent]
    relationships := [{ sub_entity := 1, super_entity := 2 }]
    subscriptions := [ex_subscription, ex_group_subscription]
    unsubscriptions := []
    events := [ex_event]
    eventActors := []
    eventSeens := [] }

/-! Helper lemmas about the store operations. -/

/-- A successful bulk insert of seen rows appends exactly the requested rows. -/
theorem bulk_create_event_seen_ok {db db2 : DB} {rows : List EventSeen}
    (h : bulk_create_event_seen db rows = Except.ok db2) :
    db2 = { db with eventSeens := db.eventSeens ++ rows } := by
  unfold bulk_create_event_seen at h
  split at h
  · injection h with h
    exact h.symm
  · exact absurd h (by simp)

/-- Retrieving filtered events touches no table other than `EventSeen`. -/
theorem get_filtered_events_frame {db db2 : DB} {m : Nat} {now : Int} {st et : Option Int}
    {seen : Option Bool} {inc mark : Bool} {evs : List Event}
    (h : Medium.get_filtered_events db m now st et seen inc mark = Except.ok (evs, db2)) :
    db2.entities = db.entities ∧ db2.relationships = db.relationships ∧
    db2.subscriptions = db.subscriptions ∧ db2.unsubscriptions = db.unsubscriptions ∧
    db2.events = db.events ∧ db2.eventActors = db.eventActors := by
  unfold Medium.get_filtered_events at h
  split at h
  · simp only [] at h
    split at h
    · rename_i db3 hmk
      injection h with h
      injection h with h1 h2
      subst h2
      have := bulk_create_event_seen_ok hmk
      subst this
      exact ⟨rfl, rfl, rfl, rfl, rfl, rfl⟩
    · exact absurd h (by simp)
  · injection h with h
    injection h with h1 h2
    subst h2
    exact ⟨rfl, rfl, rfl, rfl, rfl, rfl⟩

/-- Unless `seen = false` and `mark_seen` are both requested, `get_filtered_events`
performs no write at all: it returns the filtered rows and the store unchanged. -/
theorem get_filtered_events_no_mark (db : DB) (m : Nat) (now : Int) (st et : Option Int)
    (seen : Option Bool) (inc mark : Bool) (h : ¬ (seen = some false ∧ mark = true)) :
    Medium.get_filtered_events db m now st et seen inc mark =
      Except.ok
        (db.events.filter (matches_filters (Medium.get_event_filters db m now st et seen inc)), db) := by
  unfold Medium.get_filtered_events
  exact if_neg h

/-- Claim C2 (code evaluation): on a database whose medium has zero
subscription rows, `events` and `entity_events` do not return an empty result:
the `reduce(or_, [])` over the empty list of per-subscription `Q` objects
raises `TypeError` and the whole query aborts. -/
theorem events_without_subscriptions_raise :
    Medium.events no_subscription_db 2 0 none none none false false = Except.error "TypeError" ∧
    Medium.entity_events no_subscription_db 2 ex_entity 0 none none none false false =
      Except.error "TypeError" :=
  ⟨rfl, rfl⟩

/-- Claim C3 (code evaluation): marking the same (event, medium) pair seen
twice does not leave a single row and succeed: the first bulk insert creates
the row, and the second violates the `(event, medium)` unique constraint and
aborts with an integrity error instead of being idempotent. -/
theorem mark_seen_twice_raises :
    ∃ db2, EventQuerySet.mark_seen no_subscription_db [ex_event] 2 0 = Except.ok db2 ∧
      (db2.eventSeens.filter (fun s => decide (s.event = ex_event.id ∧ s.medium = 2))).length = 1 ∧
      EventQuerySet.mark_seen db2 [ex_event] 2 1 = Except.error "IntegrityError" := by
  refine ⟨_, rfl, by decide, rfl⟩

/-- Claim C10: a call to `events`, `entity_events` or `events_targets` with
`mark_seen = true` but `seen` omitted or `seen = true` creates no `EventSeen`
row: the seen table is returned exactly as it was. -/
theorem queries_do_not_mark_unless_seen_false (db : DB) (m : Nat) (ent : Entity)
    (ek : Option Nat) (now : Int) (st et : Option Int) (seen : Option Bool) (inc : Bool)
    (hseen : seen = none ∨ seen = some true) :
    (∀ res db2, Medium.events db m now st et seen inc true = Except.ok (res, db2) →
        db2.eventSeens = db.eventSeens) ∧
    (∀ res db2, Medium.entity_events db m ent now st et seen inc true = Except.ok (res, db2) →
        db2.eventSeens = db.eventSeens) ∧
    (∀ res db2, Medium.events_targets db m ek now st et seen inc true = Except.ok (res, db2) →
        db2.eventSeens = db.eventSeens) := by
  have hno : ¬ (seen = some false ∧ (true : Bool) = true) := by
    rcases hseen with h | h <;> simp [h]
  have hg := get_filtered_events_no_mark db m now st et seen inc true hno
  refine ⟨?_, ?_, ?_⟩ <;> intro res db2 h
  · unfold Medium.events at h
    rw [hg] at h
    simp only [] at h
    split at h
    · exact absurd h (by simp)
    · injection h with h
      injection h with h1 h2
      rw [h2]
  · unfold Medium.entity_events at h
    rw [hg] at h
    simp only [] at h
    split at h
    · exact absurd h (by simp)
    · injection h with h
      injection h with h1 h2
      rw [h2]
  · unfold Medium.events_targets at h
    rw [hg] at h
    simp only [] at h
    injection h with h
    injection h with h1 h2
    rw [h2]

/-- Claim C8: with `include_expired = false` the event filters reject any
event whose `time_expires` is set and in the past; an event with a null
`time_expires` is always retained by the expiry filter; and with
`include_expired = true` the expiration value is ignored entirely, so expired
events pass whenever the other filters pass. -/
theorem event_filters_expiry (db : DB) (m : Nat) (now : Int) (st et : Option Int)
    (seen : Option Bool) (e : Event) :
    (∀ texp, e.time_expires = some texp → texp < now →
        matches_filters (Medium.get_event_filters db m now st et seen false) e = false) ∧
    (e.time_expires = none →
        matches_filters (Medium.get_event_filters db m now st et seen false) e =
          matches_filters (Medium.get_event_filters db m now st et seen true) e) ∧
    (matches_filters (Medium.get_event_filters db m now st et seen true) e =
        matches_filters (Medium.get_event_filters db m now st et seen true)
          { e with time_expires := none }) := by
  refine ⟨?_, ?_, ?_⟩
  · intro texp he hlt
    have hn : ¬ (now ≤ texp) := by omega
    simp [Medium.get_event_filters, matches_filters, List.all_append, he, hn]
  · intro he
    simp [Medium.get_event_filters, matches_filters, List.all_append, he]
  · cases st <;> cases et <;> rcases seen with _ | (_ | _) <;>
      simp [Medium.get_event_filters, matches_filters, List.all_append, seen_by_medium]

/-- Claim C9: `subset_subscriptions` keeps exactly the subscriptions that are
either an individual subscription for the given entity with no sub-entity
kind, or a group subscription owned by a direct (single-hop) super-entity of
the entity whose sub-entity kind equals the entity's kind; nothing else, in
particular no subscription owned by a multi-hop ancestor only, is kept. -/
theorem subset_subscriptions_membership (db : DB) (subs : List Subscription) (ent : Entity)
    (s : Subscription) :
    s ∈ Medium.subset_subscriptions db subs (some ent) ↔
      s ∈ subs ∧
        ((s.entity = ent.id ∧ s.sub_entity_kind = none) ∨
          ((∃ r ∈ db.relationships, r.sub_entity = ent.id ∧ r.super_entity = s.entity) ∧
            s.sub_entity_kind = some ent.entity_kind)) := by
  simp only [Medium.subset_subscriptions, List.mem_filter, List.mem_map, Bool.or_eq_true,
    Bool.and_eq_true, decide_eq_true_eq]
  constructor
  · rintro ⟨hs, hcase⟩
    refine ⟨hs, ?_⟩
    rcases hcase with ⟨h1, h2⟩ | ⟨⟨r, ⟨hr, hrsub⟩, hrsup⟩, h2⟩
    · exact Or.inl ⟨h1, h2⟩
    · exact Or.inr ⟨⟨r, hr, hrsub, hrsup⟩, h2⟩
  · rintro ⟨hs, hcase⟩
    refine ⟨hs, ?_⟩
    rcases hcase with ⟨h1, h2⟩ | ⟨⟨r, hr, hrsub, hrsup⟩, h2⟩
    · exact Or.inl ⟨h1, h2⟩
    · exact Or.inr ⟨⟨r, ⟨hr, hrsub⟩, hrsup⟩, h2⟩

/-- Membership in `followed_by`: an entity row is followed by the given ids
iff it is one of them or a direct super-entity of one of them. -/
theorem mem_followed_by {db : DB} {ids : List Nat} {e : Entity} :
    e ∈ Medium.followed_by db ids ↔
      e ∈ db.entities ∧
        (e.id ∈ ids ∨ ∃ r ∈ db.relationships, r.sub_entity ∈ ids ∧ r.super_entity = e.id) := by
  simp only [Medium.followed_by, List.mem_filter, Bool.or_eq_true, decide_eq_true_eq,
    List.mem_map]
  constructor
  · rintro ⟨he, hin | ⟨r, ⟨hr, hsub⟩, hsup⟩⟩
    · exact ⟨he, Or.inl hin⟩
    · exact ⟨he, Or.inr ⟨r, hr, hsub, hsup⟩⟩
  · rintro ⟨he, hin | ⟨r, hr, hsub, hsup⟩⟩
    · exact ⟨he, Or.inl hin⟩
    · exact ⟨he, Or.inr ⟨r, ⟨hr, hsub⟩, hsup⟩⟩

/-- Membership in `followers_of`: an entity row is a follower of the given
ids iff it is one of them or a direct sub-entity of one of them. -/
theorem mem_followers_of {db : DB} {ids : List Nat} {e : Entity} :
    e ∈ Medium.followers_of db ids ↔
      e ∈ db.entities ∧
        (e.id ∈ ids ∨ ∃ r ∈ db.relationships, r.super_entity ∈ ids ∧ r.sub_entity = e.id) := by
  simp only [Medium.followers_of, List.mem_filter, Bool.or_eq_true, decide_eq_true_eq,
    List.mem_map]
  constructor
  · rintro ⟨he, hin | ⟨r, ⟨hr, hsup⟩, hsub⟩⟩
    · exact ⟨he, Or.inl hin⟩
    · exact ⟨he, Or.inr ⟨r, hr, hsup, hsub⟩⟩
  · rintro ⟨he, hin | ⟨r, hr, hsup, hsub⟩⟩
    · exact ⟨he, Or.inl hin⟩
    · exact ⟨he, Or.inr ⟨r, ⟨hr, hsup⟩, hsub⟩⟩

/-- Claim C4: under the default policy, `followers_of` and `followed_by` are
inverses: entity A follows entity B iff B is followed by A; `followed_by`
returns the input ids plus their direct super-entities, `followers_of` the
input ids plus their direct sub-entities; and every input set is contained in
both round trips. -/
theorem followed_by_followers_of_inverse (db : DB) (A B : Entity)
    (hA : A ∈ db.entities) (hB : B ∈ db.entities)
    (hFK : ∀ r ∈ db.relationships,
      (∃ e ∈ db.entities, e.id = r.sub_entity) ∧ (∃ e ∈ db.entities, e.id = r.super_entity))
    (X : List Nat) (hX : ∀ x ∈ X, ∃ e ∈ db.entities, e.id = x) :
    (A ∈ Medium.followers_of db [B.id] ↔ B ∈ Medium.followed_by db [A.id]) ∧
    (∀ y, y ∈ (Medium.followed_by db X).map (fun e => e.id) ↔
        (y ∈ X ∨ ∃ r ∈ db.relationships, r.sub_entity ∈ X ∧ r.super_entity = y)) ∧
    (∀ y, y ∈ (Medium.followers_of db X).map (fun e => e.id) ↔
        (y ∈ X ∨ ∃ r ∈ db.relationships, r.super_entity ∈ X ∧ r.sub_entity = y)) ∧
    (∀ x ∈ X,
      x ∈ (Medium.followed_by db ((Medium.followers_of db X).map (fun e => e.id))).map
        (fun e => e.id)) ∧
    (∀ x ∈ X,
      x ∈ (Medium.followers_of db ((Medium.followed_by db X).map (fun e => e.id))).map
        (fun e => e.id)) := by
  refine ⟨?_, ?_, ?_, ?_, ?_⟩
  · rw [mem_followers_of, mem_followed_by]
    simp only [List.mem_singleton, hA, hB, true_and]
    constructor
    · rintro (hab | ⟨r, hr, hsup, hsub⟩)
      · exact Or.inl hab.symm
      · exact Or.inr ⟨r, hr, hsub, hsup⟩
    · rintro (hba | ⟨r, hr, hsub, hsup⟩)
      · exact Or.inl hba.symm
      · exact Or.inr ⟨r, hr, hsup, hsub⟩
  · intro y
    simp only [List.mem_map]
    constructor
    · rintro ⟨e, he, rfl⟩
      exact (mem_followed_by.mp he).2
    · rintro (hy | ⟨r, hr, hsub, hsup⟩)
      · obtain ⟨e, he, rfl⟩ := hX y hy
        exact ⟨e, mem_followed_by.mpr ⟨he, Or.inl hy⟩, rfl⟩
      · obtain ⟨e, he, heid⟩ := (hFK r hr).2
        refine ⟨e, mem_followed_by.mpr ⟨he, Or.inr ⟨r, hr, hsub, ?_⟩⟩, ?_⟩
        · rw [heid, hsup]
        · rw [heid, hsup]
  · intro y
    simp only [List.mem_map]
    constructor
    · rintro ⟨e, he, rfl⟩
      exact (mem_followers_of.mp he).2
    · rintro (hy | ⟨r, hr, hsup, hsub⟩)
      · obtain ⟨e, he, rfl⟩ := hX y hy
        exact ⟨e, mem_followers_of.mpr ⟨he, Or.inl hy⟩, rfl⟩
      · obtain ⟨e, he, heid⟩ := (hFK r hr).1
        refine ⟨e, mem_followers_of.mpr ⟨he, Or.inr ⟨r, hr, hsup, ?_⟩⟩, ?_⟩
        · rw [heid, hsub]
        · rw [heid, hsub]
  · intro x hx
    obtain ⟨e, he, rfl⟩ := hX x hx
    have hin : e.id ∈ (Medium.followers_of db X).map (fun e => e.id) :=
      List.mem_map.mpr ⟨e, mem_followers_of.mpr ⟨he, Or.inl hx⟩, rfl⟩
    exact List.mem_map.mpr ⟨e, mem_followed_by.mpr ⟨he, Or.inl hin⟩, rfl⟩
  · intro x hx
    obtain ⟨e, he, rfl⟩ := hX x hx
    have hin : e.id ∈ (Medium.followed_by db X).map (fun e => e.id) :=
      List.mem_map.mpr ⟨e, mem_followed_by.mpr ⟨he, Or.inl hx⟩, rfl⟩
    exact List.mem_map.mpr ⟨e, mem_followers_of.mpr ⟨he, Or.inl hin⟩, rfl⟩

/-- With `ignore_duplicates = true` an existing event with the same uuid
makes `create_event` return `None` and leave the store untouched. -/
theorem create_event_duplicate_returns_none (db : DB) (now : Int) (actors : List ActorRef)
    (source : Nat) (context : String) (texp : Option Int) (uuid : String)
    (hex : ∃ e ∈ db.events, e.uuid = uuid) :
    EventManager.create_event db now actors true source context texp uuid =
      Except.ok (none, db) := by
  unfold EventManager.create_event
  rw [if_pos ⟨rfl, hex⟩]

/-- Claim C5: creating an event with `ignore_duplicates = true` twice with
the same uuid returns the created event the first time and `None` the second
time, with exactly one event row carrying that uuid and the second call
leaving the store untouched. -/
theorem create_event_ignore_duplicates (db : DB) (now now2 : Int)
    (actors actors2 : List ActorRef) (source source2 : Nat) (context context2 : String)
    (texp texp2 : Option Int) (uuid : String)
    (h : ∀ e ∈ db.events, e.uuid ≠ uuid) :
    ∃ ev db2,
      EventManager.create_event db now actors true source context texp uuid =
        Except.ok (some ev, db2) ∧
      (db2.events.filter (fun e => decide (e.uuid = uuid))).length = 1 ∧
      EventManager.create_event db2 now2 actors2 true source2 context2 texp2 uuid =
        Except.ok (none, db2) := by
  have hnex : ¬ ∃ e ∈ db.events, e.uuid = uuid := by
    rintro ⟨e, he, hu⟩
    exact h e he hu
  have hnex1 : ¬ ((true : Bool) = true ∧ ∃ e ∈ db.events, e.uuid = uuid) := by
    rintro ⟨-, hc⟩
    exact hnex hc
  refine
    ⟨{ id := fresh_event_id db
       source := source
       context := context
       time := now
       time_expires := texp
       uuid := uuid },
     { db with
        events := db.events ++
          [{ id := fresh_event_id db
             source := source
             context := context
             time := now
             time_expires := texp
             uuid := uuid }]
        eventActors := db.eventActors ++
          (actors.map ActorRef.to_id).map (fun a => { event := fresh_event_id db, entity := a }) },
     ?_, ?_, ?_⟩
  · unfold EventManager.create_event
    rw [if_neg hnex1, if_neg hnex]
  · have h0 : db.events.filter (fun e => decide (e.uuid = uuid)) = [] := by
      rw [List.filter_eq_nil_iff]
      intro e he
      simp [h e he]
    simp [List.filter_append, h0]
  · exact create_event_duplicate_returns_none _ _ _ _ _ _ _
      ⟨_, List.mem_append_right _ (List.mem_singleton.mpr rfl), rfl⟩

/-- An entity surviving `filter_source_targets_by_unsubscription` has no
unsubscription row for that source and medium. -/
theorem mem_filter_source_targets {db : DB} {m source : Nat} {targets : List Entity}
    {t : Entity} (h : t ∈ Medium.filter_source_targets_by_unsubscription db m source targets) :
    ¬ ∃ u ∈ db.unsubscriptions, u.medium = m ∧ u.source = source ∧ u.entity = t.id := by
  simp only [Medium.filter_source_targets_by_unsubscription, List.mem_filter,
    Bool.not_eq_true', decide_eq_false_iff_not] at h
  rintro ⟨u, hu, hm, hs, hid⟩
  refine h.2 ?_
  simp only [Medium.unsubscriptions, List.mem_map, List.mem_filter, Bool.and_eq_true,
    decide_eq_true_eq]
  exact ⟨u, ⟨hu, hm, hs⟩, hid⟩

/-- Claim C6: every pair returned by `events_targets` has a non-empty target
list (events whose target list ends up empty are dropped), and no returned
target has an unsubscription row for the event's source on the queried
medium. -/
theorem events_targets_unsubscribed_removed (db : DB) (m : Nat) (ek : Option Nat) (now : Int)
    (st et : Option Int) (seen : Option Bool) (inc mark : Bool)
    (pairs : List (Event × List Entity)) (db2 : DB)
    (h : Medium.events_targets db m ek now st et seen inc mark = Except.ok (pairs, db2)) :
    ∀ p ∈ pairs, p.2 ≠ [] ∧
      ∀ t ∈ p.2,
        ¬ ∃ u ∈ db.unsubscriptions, u.medium = m ∧ u.source = p.1.source ∧ u.entity = t.id := by
  unfold Medium.events_targets at h
  cases hg : Medium.get_filtered_events db m now st et seen inc mark with
  | error msg =>
    rw [hg] at h
    exact absurd h (by simp)
  | ok val =>
    obtain ⟨evs, db3⟩ := val
    rw [hg] at h
    simp only [] at h
    injection h with h
    injection h with h1 h2
    subst h1 h2
    have hframe := get_filtered_events_frame hg
    intro p hp
    rw [List.mem_filterMap] at hp
    obtain ⟨e, he, hf⟩ := hp
    unfold Medium.event_targets_pair at hf
    simp only [] at hf
    split at hf
    · exact Option.noConfusion hf
    · rename_i hne
      injection hf with hf
      subst hf
      refine ⟨?_, ?_⟩
      · intro hnil
        rw [List.isEmpty_iff] at hne
        exact hne hnil
      · intro t ht
        have ht2 : ¬ ∃ u ∈ db3.unsubscriptions,
            u.medium = m ∧ u.source = e.source ∧ u.entity = t.id := by
          cases ek with
          | none => exact mem_filter_source_targets ht
          | some k => exact mem_filter_source_targets (List.mem_filter.mp ht).1
        rw [hframe.2.2.2.1] at ht2
        exact ht2

/-- Boolean helper: a true negation means a false operand. -/
theorem bool_not_true {b : Bool} (h : (!b) = true) : b = false := by
  cases b
  · rfl
  · exact absurd h (by simp)

/-- Every event surviving a `seen = false` filter pass is unseen for the
medium: the not-seen `Q` object is among the conjoined filters. -/
theorem seen_false_filter_unseen (db : DB) (m : Nat) (now : Int) (st et : Option Int)
    (inc : Bool) :
    ∀ e ∈ db.events.filter
        (matches_filters (Medium.get_event_filters db m now st et (some false) inc)),
      seen_by_medium db m e = false := by
  intro e he
  have hpe := (List.mem_filter.mp he).2
  unfold matches_filters at hpe
  have hfd : (fun e : Event => !seen_by_medium db m e) ∈
      Medium.get_event_filters db m now st et (some false) inc := by
    unfold Medium.get_event_filters
    refine List.mem_append_right _ ?_
    exact List.mem_singleton.mpr rfl
  exact bool_not_true (List.all_eq_true.mp hpe _ hfd)

/-- The seen rows created for a list of events with pairwise distinct ids
carry pairwise distinct `(event, medium)` keys. -/
theorem mark_rows_nodup_keys (m : Nat) (now : Int) (l : List Event)
    (hl : (l.map (fun e => e.id)).Nodup) :
    ((l.map (fun e => ({ event := e.id, medium := m, time_seen := now } : EventSeen))).map
      EventSeen.key).Nodup := by
  rw [List.map_map]
  have h3 : (EventSeen.key ∘ fun e : Event =>
      ({ event := e.id, medium := m, time_seen := now } : EventSeen)) =
      ((fun i => (i, m)) ∘ fun e : Event => e.id) := rfl
  rw [h3, ← List.map_map]
  exact hl.map (fun a b hab => congrArg Prod.fst hab)

/-- Marking a batch of unseen events with pairwise distinct ids succeeds and
appends exactly one seen row per event. -/
theorem mark_seen_unseen_ok (db : DB) (m : Nat) (now : Int) (l : List Event)
    (h1 : (l.map (fun e => e.id)).Nodup) (h2 : ∀ e ∈ l, seen_by_medium db m e = false) :
    EventQuerySet.mark_seen db l m now =
      Except.ok { db with eventSeens := (db.eventSeens ++
        l.map (fun e => { event := e.id, medium := m, time_seen := now })) } := by
  have hconf : ∀ r ∈ l.map (fun e => ({ event := e.id, medium := m, time_seen := now } : EventSeen)),
      ∀ s0 ∈ db.eventSeens, EventSeen.key s0 ≠ EventSeen.key r := by
    intro r hr s0 hs0 hkey
    obtain ⟨e, he, rfl⟩ := List.mem_map.mp hr
    have htrue : seen_by_medium db m e = true := by
      simp only [seen_by_medium, decide_eq_true_eq]
      exact ⟨s0, hs0, congrArg Prod.fst hkey, congrArg Prod.snd hkey⟩
    rw [h2 e he] at htrue
    exact Bool.noConfusion htrue
  unfold EventQuerySet.mark_seen bulk_create_event_seen
  rw [if_pos ⟨mark_rows_nodup_keys m now l h1, hconf⟩]

/-- Claim C1: a `seen = false, mark_seen = true` retrieval first materialises
the ids of the unseen events, re-queries by id and marks after, so it returns
exactly the events that were unseen at call time; afterwards those rows are
marked for the medium, so a subsequent `seen = false` retrieval returns none
of them. -/
theorem filtered_events_unseen_snapshot_mark (db : DB) (m : Nat) (now now2 : Int)
    (st et st2 et2 : Option Int) (inc inc2 : Bool)
    (hnd : (db.events.map (fun e => e.id)).Nodup) :
    ∃ res1 db1,
      Medium.get_filtered_events db m now st et (some false) inc true = Except.ok (res1, db1) ∧
      (∀ e ∈ db.events,
        matches_filters (Medium.get_event_filters db m now st et (some false) inc) e = true →
          e ∈ res1) ∧
      (∀ e ∈ res1, e ∈ db.events ∧
        matches_filters (Medium.get_event_filters db m now st et (some false) inc) e = true) ∧
      (∀ res2 db3,
        Medium.get_filtered_events db1 m now2 st2 et2 (some false) inc2 false =
          Except.ok (res2, db3) →
        ∀ e ∈ res1, e ∉ res2) := by
  have hRunseen : ∀ e ∈ db.events.filter (fun e => decide (e.id ∈
      (db.events.filter
        (matches_filters (Medium.get_event_filters db m now st et (some false) inc))).map
      (fun e => e.id))),
      seen_by_medium db m e = false := by
    intro e he
    obtain ⟨hedb, hid⟩ := List.mem_filter.mp he
    have hid2 := of_decide_eq_true hid
    obtain ⟨e0, he0, he0id⟩ := List.mem_map.mp hid2
    have he0db := (List.mem_filter.mp he0).1
    have heq0 : e0 = e := List.inj_on_of_nodup_map hnd he0db hedb he0id
    rw [← heq0]
    exact seen_false_filter_unseen db m now st et inc e0 he0
  have hRnodup : ((db.events.filter (fun e => decide (e.id ∈
      (db.events.filter
        (matches_filters (Medium.get_event_filters db m now st et (some false) inc))).map
      (fun e => e.id)))).map (fun e => e.id)).Nodup :=
    List.Nodup.sublist (List.Sublist.map _ (List.filter_sublist _)) hnd
  have hmark := mark_seen_unseen_ok db m now _ hRnodup hRunseen
  refine
    ⟨db.events.filter (fun e => decide (e.id ∈
        (db.events.filter
          (matches_filters (Medium.get_event_filters db m now st et (some false) inc))).map
        (fun e => e.id))),
      { db with eventSeens := (db.eventSeens ++
          (db.events.filter (fun e => decide (e.id ∈
            (db.events.filter
              (matches_filters (Medium.get_event_filters db m now st et (some false) inc))).map
            (fun e => e.id)))).map
          (fun e => { event := e.id, medium := m, time_seen := now })) },
      ?_, ?_, ?_, ?_⟩
  · unfold Medium.get_filtered_events
    rw [if_pos ⟨rfl, rfl⟩]
    simp only [hmark]
  · intro e he hPe
    refine List.mem_filter.mpr ⟨he, decide_eq_true ?_⟩
    exact List.mem_map.mpr ⟨e, List.mem_filter.mpr ⟨he, hPe⟩, rfl⟩
  · intro e he
    obtain ⟨hedb, hid⟩ := List.mem_filter.mp he
    have hid2 := of_decide_eq_true hid
    obtain ⟨e0, he0, he0id⟩ := List.mem_map.mp hid2
    have he0db := (List.mem_filter.mp he0).1
    have heq0 : e0 = e := List.inj_on_of_nodup_map hnd he0db hedb he0id
    refine ⟨hedb, ?_⟩
    rw [← heq0]
    exact (List.mem_filter.mp he0).2
  · intro res2 db3 h2 e he1 he2
    rw [get_filtered_events_no_mark _ m now2 st2 et2 (some false) inc2 false (by simp)] at h2
    injection h2 with h2
    injection h2 with h21 h22
    rw [← h21] at he2
    have hfalse := seen_false_filter_unseen _ m now2 st2 et2 inc2 e he2
    have htrue : seen_by_medium
        { db with eventSeens := (db.eventSeens ++
          (db.events.filter (fun e => decide (e.id ∈
            (db.events.filter
              (matches_filters (Medium.get_event_filters db m now st et (some false) inc))).map
            (fun e => e.id)))).map
          (fun e => { event := e.id, medium := m, time_seen := now })) } m e = true := by
      simp only [seen_by_medium, decide_eq_true_eq]
      refine ⟨{ event := e.id, medium := m, time_seen := now }, ?_, rfl, rfl⟩
      exact List.mem_append_right _ (List.mem_map.mpr ⟨e, he1, rfl⟩)
    rw [hfalse] at htrue
    exact Bool.noConfusion htrue

/-- Claim C7 (counterexample): with the same subscription row stored twice,
`events_targets` returns a target list in which the same entity id occurs
twice, so the final output is not de-duplicated by entity identity. -/
theorem events_targets_duplicate_targets_cex :
    ∃ p ∈ result_pairs
        (Medium.events_targets dup_subscription_db 2 none 0 none none none false false),
      ¬ (p.2.map (fun t => t.id)).Nodup := by
  decide

/-- Claim C7 (amended): each subscription row matching an event contributes
its targets independently, and `events_targets` performs no de-duplication:
a subscription row stored twice makes its subscribed entity appear at least
twice in the event's final target list. -/
theorem events_targets_preserves_duplicate_subscriptions (db : DB) (m : Nat) (now : Int)
    (s : Subscription) (l1 l2 l3 : List Subscription) (e : Event) (t : Entity)
    (hsubs : db.subscriptions = l1 ++ s :: (l2 ++ s :: l3))
    (hm : s.medium = m) (hsrc : e.source = s.source) (hof : s.only_following = false)
    (ht : t ∈ Subscription.subscribed_entities db s)
    (hunsub : t.id ∉ Medium.unsubscriptions db m e.source)
    (he : e ∈ db.events) :
    ∃ ts,
      (e, ts) ∈ result_pairs (Medium.events_targets db m none now none none none true false) ∧
      2 ≤ ts.count t := by
  have hgfe := get_filtered_events_no_mark db m now none none none true false (by simp)
  have hall : db.events.filter
      (matches_filters (Medium.get_event_filters db m now none none none true)) = db.events := by
    apply List.filter_eq_self.mpr
    intro a _
    simp [matches_filters, Medium.get_event_filters]
  have hsubf : db.subscriptions.filter (fun x => decide (x.medium = m)) =
      l1.filter (fun x => decide (x.medium = m)) ++ s ::
        (l2.filter (fun x => decide (x.medium = m)) ++ s ::
          l3.filter (fun x => decide (x.medium = m))) := by
    rw [hsubs]
    simp [List.filter_append, List.filter_cons, hm]
  have hcs : Medium.subscription_targets db e s = Subscription.subscribed_entities db s := by
    unfold Medium.subscription_targets
    rw [if_pos hsrc]
    simp [hof]
  have h1c : 0 < (Medium.subscription_targets db e s).count t := by
    rw [hcs]
    exact List.count_pos_iff.mpr ht
  have hcount : 2 ≤ ((db.subscriptions.filter (fun x => decide (x.medium = m))).flatMap
      (Medium.subscription_targets db e)).count t := by
    rw [hsubf, List.flatMap_append, List.flatMap_cons, List.flatMap_append, List.flatMap_cons,
      List.count_append, List.count_append, List.count_append, List.count_append]
    omega
  have hcount2 : 2 ≤ (Medium.filter_source_targets_by_unsubscription db m e.source
      ((db.subscriptions.filter (fun x => decide (x.medium = m))).flatMap
        (Medium.subscription_targets db e))).count t := by
    unfold Medium.filter_source_targets_by_unsubscription
    rw [List.count_filter (by simp [hunsub])]
    exact hcount
  have hmem : t ∈ Medium.filter_source_targets_by_unsubscription db m e.source
      ((db.subscriptions.filter (fun x => decide (x.medium = m))).flatMap
        (Medium.subscription_targets db e)) :=
    List.count_pos_iff.mp (by omega)
  have hpair : Medium.event_targets_pair db m none
      (db.subscriptions.filter (fun x => decide (x.medium = m))) e =
      some (e, Medium.filter_source_targets_by_unsubscription db m e.source
        ((db.subscriptions.filter (fun x => decide (x.medium = m))).flatMap
          (Medium.subscription_targets db e))) := by
    unfold Medium.event_targets_pair
    simp only []
    rw [if_neg]
    intro hc
    exact List.ne_nil_of_mem hmem (List.isEmpty_iff.mp hc)
  refine ⟨Medium.filter_source_targets_by_unsubscription db m e.source
      ((db.subscriptions.filter (fun x => decide (x.medium = m))).flatMap
        (Medium.subscription_targets db e)), ?_, hcount2⟩
  unfold Medium.events_targets
  rw [hgfe]
  simp only [result_pairs]
  rw [hall]
  exact List.mem_filterMap.mpr ⟨e, he, hpair⟩

/-- Witness for claim C1 at a store with two unseen events. -/
theorem filtered_events_unseen_snapshot_mark_witness :
    (two_event_db.events.map (fun e => e.id)).Nodup ∧
    (∃ res1 db1,
      Medium.get_filtered_events two_event_db 2 0 none none (some false) false true =
        Except.ok (res1, db1) ∧
      (∀ e ∈ two_event_db.events,
        matches_filters (Medium.get_event_filters two_event_db 2 0 none none (some false) false)
          e = true → e ∈ res1) ∧
      (∀ e ∈ res1, e ∈ two_event_db.events ∧
        matches_filters (Medium.get_event_filters two_event_db 2 0 none none (some false) false)
          e = true) ∧
      (∀ res2 db3,
        Medium.get_filtered_events db1 2 0 none none (some false) false false =
          Except.ok (res2, db3) →
        ∀ e ∈ res1, e ∉ res2)) :=
  ⟨by decide,
    filtered_events_unseen_snapshot_mark two_event_db 2 0 0 none none none none false false
      (by decide)⟩

/-- Witness for claim C4 on the parent/child store. -/
theorem followed_by_followers_of_inverse_witness :
    ex_entity ∈ follow_db.entities ∧ ex_parent ∈ follow_db.entities ∧
    ((ex_entity ∈ Medium.followers_of follow_db [ex_parent.id] ↔
        ex_parent ∈ Medium.followed_by follow_db [ex_entity.id]) ∧
      (∀ y, y ∈ (Medium.followed_by follow_db [1]).map (fun e => e.id) ↔
          (y ∈ [1] ∨ ∃ r ∈ follow_db.relationships, r.sub_entity ∈ [1] ∧ r.super_entity = y)) ∧
      (∀ y, y ∈ (Medium.followers_of follow_db [1]).map (fun e => e.id) ↔
          (y ∈ [1] ∨ ∃ r ∈ follow_db.relationships, r.super_entity ∈ [1] ∧ r.sub_entity = y)) ∧
      (∀ x ∈ [1],
        x ∈ (Medium.followed_by follow_db
          ((Medium.followers_of follow_db [1]).map (fun e => e.id))).map (fun e => e.id)) ∧
      (∀ x ∈ [1],
        x ∈ (Medium.followers_of follow_db
          ((Medium.followed_by follow_db [1]).map (fun e => e.id))).map (fun e => e.id))) :=
  ⟨by decide, by decide,
    followed_by_followers_of_inverse follow_db ex_entity ex_parent (by decide) (by decide)
      (by decide) [1] (by decide)⟩

/-- Witness for claim C5: creating uuid u2 twice on the example store. -/
theorem create_event_ignore_duplicates_witness :
    (∀ e ∈ no_subscription_db.events, e.uuid ≠ "u2") ∧
    (∃ ev db2,
      EventManager.create_event no_subscription_db 0 [ActorRef.ent ex_entity] true 3 "ctx"
        none "u2" = Except.ok (some ev, db2) ∧
      (db2.events.filter (fun e => decide (e.uuid = "u2"))).length = 1 ∧
      EventManager.create_event db2 1 [] true 3 "other" none "u2" =
        Except.ok (none, db2)) :=
  ⟨by decide,
    create_event_ignore_duplicates no_subscription_db 0 1 [ActorRef.ent ex_entity] [] 3 3
      "ctx" "other" none none "u2" (by decide)⟩

/-- Witness for claim C6 on the duplicate-subscription store. -/
theorem events_targets_unsubscribed_removed_witness :
    Medium.events_targets dup_subscription_db 2 none 0 none none none false false =
      Except.ok ([(ex_event, [ex_entity, ex_entity])], dup_subscription_db) ∧
    (∀ p ∈ [(ex_event, [ex_entity, ex_entity])], p.2 ≠ [] ∧
      ∀ t ∈ p.2,
        ¬ ∃ u ∈ dup_subscription_db.unsubscriptions,
          u.medium = 2 ∧ u.source = p.1.source ∧ u.entity = t.id) :=
  ⟨rfl,
    events_targets_unsubscribed_removed dup_subscription_db 2 none 0 none none none false false
      [(ex_event, [ex_entity, ex_entity])] dup_subscription_db rfl⟩

/-- Witness for the amended claim C7 on the duplicate-subscription store. -/
theorem events_targets_preserves_duplicate_subscriptions_witness :
    dup_subscription_db.subscriptions = [] ++ ex_subscription :: ([] ++ ex_subscription :: []) ∧
    (∃ ts,
      (ex_event, ts) ∈ result_pairs
        (Medium.events_targets dup_subscription_db 2 none 0 none none none true false) ∧
      2 ≤ ts.count ex_entity) :=
  ⟨rfl,
    events_targets_preserves_duplicate_subscriptions dup_subscription_db 2 0 ex_subscription
      [] [] [] ex_event ex_entity rfl rfl rfl rfl (by decide) (by decide) (by decide)⟩

/-- Witness for claim C8 at an event expired relative to `now = 0`. -/
theorem event_filters_expiry_witness :
    (∀ texp, ex_expired_event.time_expires = some texp → texp < 0 →
        matches_filters (Medium.get_event_filters no_subscription_db 2 0 none none none false)
          ex_expired_event = false) ∧
    (ex_expired_event.time_expires = none →
        matches_filters (Medium.get_event_filters no_subscription_db 2 0 none none none false)
          ex_expired_event =
        matches_filters (Medium.get_event_filters no_subscription_db 2 0 none none none true)
          ex_expired_event) ∧
    (matches_filters (Medium.get_event_filters no_subscription_db 2 0 none none none true)
        ex_expired_event =
      matches_filters (Medium.get_event_filters no_subscription_db 2 0 none none none true)
        { ex_expired_event with time_expires := none }) :=
  event_filters_expiry no_subscription_db 2 0 none none none ex_expired_event

/-- Witness for claim C9: the individual subscription is kept for the child
entity on the parent/child store. -/
theorem subset_subscriptions_membership_witness :
    ex_subscription ∈
        Medium.subset_subscriptions follow_db [ex_subscription, ex_group_subscription]
          (some ex_entity) ↔
      ex_subscription ∈ [ex_subscription, ex_group_subscription] ∧
        ((ex_subscription.entity = ex_entity.id ∧ ex_subscription.sub_entity_kind = none) ∨
          ((∃ r ∈ follow_db.relationships,
              r.sub_entity = ex_entity.id ∧ r.super_entity = ex_subscription.entity) ∧
            ex_subscription.sub_entity_kind = some ex_entity.entity_kind)) :=
  subset_subscriptions_membership follow_db [ex_subscription, ex_group_subscription]
    ex_entity ex_subscription

/-- Witness for claim C10 with `seen` omitted and `mark_seen = true`. -/
theorem queries_do_not_mark_unless_seen_false_witness :
    ((none : Option Bool) = none ∨ (none : Option Bool) = some true) ∧
    ((∀ res db2, Medium.events dup_subscription_db 2 0 none none none false true =
          Except.ok (res, db2) → db2.eventSeens = dup_subscription_db.eventSeens) ∧
      (∀ res db2, Medium.entity_events dup_subscription_db 2 ex_entity 0 none none none false
            true = Except.ok (res, db2) → db2.eventSeens = dup_subscription_db.eventSeens) ∧
      (∀ res db2, Medium.events_targets dup_subscription_db 2 none 0 none none none false
            true = Except.ok (res, db2) → db2.eventSeens = dup_subscription_db.eventSeens)) :=
  ⟨Or.inl rfl,
    queries_do_not_mark_unless_seen_false dup_subscription_db 2 ex_entity none 0 none none
      none false (Or.inl rfl)⟩

end EntityEvent
